import Mathlib

/-!
Verification development for the 4P-medicine research tool
(`search_medical_papers.py`, `analyze_papers.py`, `convert_to_csv.py`,
`example.py`).  The Python functions are shallowly embedded as Lean
definitions; JSON/Python values are modelled by `PyVal`, Python dicts by
association lists with Python assignment semantics (update in place,
append when the key is new).
-/

/-- A Python/JSON value as manipulated by the scripts. -/
inductive PyVal where
  | str (s : String)
  | int (n : Int)
  | bool (b : Bool)
  | none
  | list (xs : List PyVal)
  | dict (kvs : List (String × PyVal))

/-- A Python dict (insertion-ordered association list; keys are unique in
dicts produced by `json.loads` or by the scripts themselves). -/
abbrev Dict := List (String × PyVal)

/-- Key membership test, as Python `k in d` / `k not in d`. -/
def hasKey : Dict → String → Bool
  | [], _ => false
  | kv :: d, k => kv.1 == k || hasKey d k

/-- Python `d[k]` / `d.get(k)`: value of the first entry with key `k`. -/
def dictGet : Dict → String → Option PyVal
  | [], _ => Option.none
  | kv :: d, k => if kv.1 == k then some kv.2 else dictGet d k

/-- Python `d.get(k, default)`. -/
def dictGetD (d : Dict) (k : String) (dflt : PyVal) : PyVal :=
  (dictGet d k).getD dflt

/-- Replace the value of every entry with key `k` (dict keys are unique,
so this replaces the single matching entry). -/
def replaceEntry : Dict → String → PyVal → Dict
  | [], _, _ => []
  | kv :: d, k, v =>
    if kv.1 == k then (k, v) :: replaceEntry d k v else kv :: replaceEntry d k v

/-- Python assignment `d[k] = v`: update in place when `k` is present,
append the new entry otherwise. -/
def dictSet (d : Dict) (k : String) (v : PyVal) : Dict :=
  if hasKey d k then replaceEntry d k v else d ++ [(k, v)]

theorem hasKey_replaceEntry_same (d : Dict) (k : String) (v : PyVal) :
    hasKey (replaceEntry d k v) k = hasKey d k := by
  induction d with
  | nil => rfl
  | cons hd tl ih =>
    by_cases h : hd.1 = k
    · simp [replaceEntry, hasKey, h, ih]
    · simp [replaceEntry, hasKey, h, ih]

theorem hasKey_replaceEntry_other (d : Dict) (k k2 : String) (v : PyVal)
    (h : k2 ≠ k) : hasKey (replaceEntry d k v) k2 = hasKey d k2 := by
  induction d with
  | nil => rfl
  | cons hd tl ih =>
    by_cases h1 : hd.1 = k
    · have : ¬ (k = k2) := fun he => h he.symm
      simp [replaceEntry, hasKey, h1, this, ih]
    · simp [replaceEntry, hasKey, h1, ih]

theorem hasKey_append (d e : Dict) (k : String) :
    hasKey (d ++ e) k = (hasKey d k || hasKey e k) := by
  induction d with
  | nil => simp [hasKey]
  | cons hd tl ih => simp [hasKey, ih, Bool.or_assoc]

theorem hasKey_dictSet_self (d : Dict) (k : String) (v : PyVal) :
    hasKey (dictSet d k v) k = true := by
  unfold dictSet
  by_cases h : hasKey d k
  · simp [h, hasKey_replaceEntry_same, h]
  · simp [h, hasKey_append, hasKey]

theorem hasKey_dictSet_other (d : Dict) (k k2 : String) (v : PyVal)
    (h : k2 ≠ k) : hasKey (dictSet d k v) k2 = hasKey d k2 := by
  unfold dictSet
  by_cases hk : hasKey d k
  · simp [hk, hasKey_replaceEntry_other d k k2 v h]
  · have : ¬ (k = k2) := fun he => h he.symm
    simp [hk, hasKey_append, hasKey, this]

theorem dictGet_replaceEntry_self (d : Dict) (k : String) (v : PyVal)
    (h : hasKey d k = true) : dictGet (replaceEntry d k v) k = some v := by
  induction d with
  | nil => simp [hasKey] at h
  | cons hd tl ih =>
    by_cases h1 : hd.1 = k
    · simp [replaceEntry, dictGet, h1]
    · have h2 : hasKey tl k = true := by
        simpa [hasKey, h1] using h
      simp [replaceEntry, dictGet, h1, ih h2]

theorem dictGet_replaceEntry_other (d : Dict) (k k2 : String) (v : PyVal)
    (h : k2 ≠ k) : dictGet (replaceEntry d k v) k2 = dictGet d k2 := by
  induction d with
  | nil => rfl
  | cons hd tl ih =>
    by_cases h1 : hd.1 = k
    · have : ¬ (k = k2) := fun he => h he.symm
      simp [replaceEntry, dictGet, h1, this, ih]
    · simp [replaceEntry, dictGet, h1, ih]

theorem dictGet_append_of_hasKey_eq_false (d e : Dict) (k : String)
    (h : hasKey d k = false) : dictGet (d ++ e) k = dictGet e k := by
  induction d with
  | nil => rfl
  | cons hd tl ih =>
    have h1 : (hd.1 == k) = false := by
      simp [hasKey] at h
      simp [h.1]
    have h2 : hasKey tl k = false := by
      simp [hasKey] at h
      simp [h.2]
    simp [dictGet, h1, ih h2]

theorem dictGet_dictSet_self (d : Dict) (k : String) (v : PyVal) :
    dictGet (dictSet d k v) k = some v := by
  unfold dictSet
  by_cases h : hasKey d k
  · simp [h, dictGet_replaceEntry_self d k v h]
  · simp [h, dictGet_append_of_hasKey_eq_false d _ k (by simpa using h), dictGet]

theorem dictGet_dictSet_other (d : Dict) (k k2 : String) (v : PyVal)
    (h : k2 ≠ k) : dictGet (dictSet d k v) k2 = dictGet d k2 := by
  unfold dictSet
  by_cases hk : hasKey d k
  · simp [hk, dictGet_replaceEntry_other d k k2 v h]
  · have hne : ¬ (k = k2) := fun he => h he.symm
    induction d with
    | nil => simp [hk, dictGet, hne]
    | cons hd tl ih =>
      by_cases h1 : hd.1 = k2
      · simp [hk, dictGet, h1]
      · have hk2 : hasKey tl k = false := by
          by_cases h2 : hd.1 = k
          · simp [hasKey, h2] at hk
          · simpa [hasKey, h2] using hk
        simpa [hk, dictGet, h1, hk2] using ih (by simp [hk2])

/-! ### `search_medical_papers.py` -/

/-- The characters removed by Python `str.strip()` with no argument
(ASCII whitespace; the practically relevant subset). -/
def isPySpace (c : Char) : Bool :=
  c == ' ' || c == '\t' || c == '\n' || c == '\r' || c == '\x0B' || c == '\x0C'

/-- Python `s.strip()`. -/
def pyStrip (s : String) : String :=
  String.mk (((s.data.dropWhile isPySpace).reverse.dropWhile isPySpace).reverse)

/-- Python truthiness of a string-or-None value (`None` and `""` are
falsy). -/
def truthyOptStr : Option String → Bool
  | Option.none => false
  | some s => s != ""

/-- A string-or-None Python value stored into a dict (ElementTree gives
`.text = None` when element content starts with a child node). -/
def pyValOfText : Option String → PyVal
  | some s => .str s
  | Option.none => PyVal.none

/-- How an f-string interpolates a string-or-None value (`None` renders
as the text `None`). -/
def pyFormat : Option String → String
  | some s => s
  | Option.none => "None"

/-- The data extracted by ElementTree from one `PubmedArticle` element, as
read by `search_medical_papers` (lines 93-165).  The outer `Option.none`
models a missing XML element; for a present element, the inner
`Option String` is its `.text`, which is Python `None` (here
`Option.none`) when the element content begins with a child node, e.g. a
title starting with inline markup. -/
structure XmlArticle where
  hasMedlineCitation : Bool
  hasArticleElem : Bool
  pmid : Option (Option String)
  title : Option (Option String)
  journal : Option (Option String)
  /-- The `Journal/JournalIssue/PubDate` element with its optional `Year`,
  `Month`, `Day` children, each carrying its `.text`. -/
  pubDate : Option
    (Option (Option String) × Option (Option String) × Option (Option String))
  /-- The `Abstract` element: list of `AbstractText` children, each with an
  optional `Label` attribute and its `.text`. -/
  abstractTexts : Option (List (Option String × Option String))
  /-- The `PublicationTypeList` element: the `.text` of each
  `PublicationType` child. -/
  pubTypes : Option (List (Option String))

/-- The body of the per-article loop of `search_medical_papers`
(lines 93-167): builds the paper dict, or `Option.none` when the article
is skipped by a `continue`.  A variable such as `pmid` is `""` when the
element is missing and otherwise the element text, possibly `None`. -/
def processArticle (art : XmlArticle) : Option Dict :=
  if !art.hasMedlineCitation then Option.none
  else if !art.hasArticleElem then Option.none
  else
    let pmid : Option String := art.pmid.getD (some "")
    let title : Option String := art.title.getD (some "")
    let journal : Option String := art.journal.getD (some "")
    let paper : Dict :=
      [("pubmed_id", pyValOfText pmid), ("title", pyValOfText title),
       ("journal", pyValOfText journal),
       ("publication_date", .str ""), ("abstract", .str ""),
       ("url", .str ("https://pubmed.ncbi.nlm.nih.gov/" ++ pyFormat pmid ++ "/"))]
    let paper :=
      match art.pubDate with
      | Option.none => paper
      | some (y, m, d) =>
        let year : Option String := y.getD (some "")
        let month : Option String := m.getD (some "")
        let day : Option String := d.getD (some "")
        dictSet paper "publication_date"
          (.str (pyStrip (pyFormat year ++ " " ++ pyFormat month ++ " " ++
            pyFormat day)))
    let paper :=
      match art.abstractTexts with
      | Option.none => paper
      | some parts =>
        let abstract_parts := parts.map (fun lt =>
          let text := lt.2.getD ""
          if truthyOptStr lt.1 then lt.1.getD "" ++ ": " ++ text else text)
        dictSet paper "abstract" (.str (String.intercalate " " abstract_parts))
    let pub_types : List PyVal :=
      match art.pubTypes with
      | Option.none => []
      | some ts => ts.map pyValOfText
    some (dictSet paper "publication_types" (.list pub_types))

/-- Python runtime errors relevant to the embedding. -/
inductive PyError where
  | nameError
deriving DecidableEq, Repr

/-- Embedding of `search_medical_papers` (lines 8-199).
`group_name` is the module-level global that only the `__main__` block
defines: `Option.none` models the imported-module case where the name is
undefined and evaluating it (line 174) raises `NameError`.  `idList` is
the PubMed id list of the search step; `parsed` is `Option.none` when the
fetch response is blank or fails to parse (the early-return branches at
lines 73-86), and otherwise carries the parsed `PubmedArticle` elements.
File writes are omitted; the embedding returns the value the function
would return, or the uncaught exception. -/
def search_medical_papers (group_name : Option String)
    (idList : List String) (parsed : Option (List XmlArticle)) :
    Except PyError (List Dict) :=
  if idList.isEmpty then .ok []
  else
    match parsed with
    | Option.none => .ok []
    | some arts =>
      let papers := arts.filterMap processArticle
      match group_name with
      | Option.none => .error .nameError
      | some _ => .ok papers

/-! ### `analyze_papers.py` -/

/-- An article record as read from the `medical_papers_*.json` file by
`analyze_papers_with_gemini` (the fields `search_medical_papers`
produces and the analysis loop reads). -/
structure Paper where
  pubmed_id : String
  title : String
  journal : String
  publication_date : String
  abstract : String
  url : String
  publication_types : List String
deriving DecidableEq, Repr

/-- Line 45: the list of papers whose stripped abstract is non-empty. -/
def papersWithAbstracts (papers : List Paper) : List Paper :=
  papers.filter (fun p => pyStrip p.abstract != "")

/-- Python slice `l[:n]` for an `int` bound (negative bounds count from
the end; either way the result is an initial segment). -/
def pySliceTo {α : Type} (l : List α) (n : Int) : List α :=
  if n < 0 then l.take (l.length - n.natAbs) else l.take n.toNat

/-- Lines 52-57: the list of papers the classification loop iterates
over. -/
def papersToAnalyze (papers : List Paper) (max_papers : Option Int) :
    List Paper :=
  let pwa := papersWithAbstracts papers
  match max_papers with
  | Option.none => pwa
  | some n => pySliceTo pwa n

/-- Outcome of one `requests.post` call to the Gemini endpoint
(lines 109-150): HTTP 200, a non-200 status, a timeout, or another
request exception. -/
inductive AttemptOutcome where
  | success
  | httpError (code : Nat)
  | timeout
  | reqError
deriving DecidableEq, Repr

/-- The retry loop of lines 98-150, for attempt outcomes
`o i, o (i+1), ...` and `r` remaining attempts: returns the final
`success` flag and the number of requests issued. -/
def runAttemptsAux (o : Nat → AttemptOutcome) : Nat → Nat → Bool × Nat
  | _, 0 => (false, 0)
  | i, r + 1 =>
    match o i with
    | .success => (true, 1)
    | _ =>
      let p := runAttemptsAux o (i + 1) r
      (p.1, p.2 + 1)

/-- The retry loop with `max_retries = 3` (line 99): outcome flag and
number of requests issued for one paper. -/
def runAttempts (o : Nat → AttemptOutcome) : Bool × Nat :=
  runAttemptsAux o 0 3

/-- Line 178-184: the `paper` sub-dict attached to an analysis. -/
def paperInfo (p : Paper) : PyVal :=
  .dict [("pubmed_id", .str p.pubmed_id), ("title", .str p.title),
         ("url", .str p.url), ("journal", .str p.journal),
         ("publication_date", .str p.publication_date)]

/-- Lines 177-198: attach the paper info to the parsed model JSON and
fill in defaults for missing fields. -/
def fillDefaults (analysis : Dict) (p : Paper) : Dict :=
  let a := dictSet analysis "paper" (paperInfo p)
  let a := if hasKey a "is_relevant" then a else dictSet a "is_relevant" (.bool false)
  let a := if hasKey a "aspects" then a else dictSet a "aspects" (.list [])
  let a := if hasKey a "is_large_trial" then a else dictSet a "is_large_trial" (.bool false)
  let a := if hasKey a "summary" then a else dictSet a "summary" (.str "")
  let a := if hasKey a "revolutionary_aspects" then a else dictSet a "revolutionary_aspects" PyVal.none
  if hasKey a "impact_score" then a else dictSet a "impact_score" (.int 0)

/-- Lines 38-214 of `analyze_papers_with_gemini`: paper selection and the
classification loop, abstracted over the network (`outcomes i k` is the
outcome of the `k`-th request attempt for the `i`-th analyzed paper) and
over response parsing (`modelJson i` is the JSON object parsed out of a
successful response for paper `i`, `Option.none` when extraction or JSON
parsing fails).  Returns the `results` list and the total number of
requests issued. -/
def analyzeRun (papers : List Paper) (max_papers : Option Int)
    (outcomes : Nat → Nat → AttemptOutcome) (modelJson : Nat → Option Dict) :
    List Dict × Nat :=
  if papers.isEmpty then ([], 0)
  else if (papersWithAbstracts papers).isEmpty then ([], 0)
  else
    (papersToAnalyze papers max_papers).enum.foldl
      (fun acc ip =>
        let r := runAttempts (outcomes ip.1)
        let acc2 := (acc.1, acc.2 + r.2)
        if r.1 then
          match modelJson ip.1 with
          | some a => (acc2.1 ++ [fillDefaults a ip.2], acc2.2)
          | Option.none => acc2
        else acc2)
      ([], 0)

/-! ### Report generation (lines 222-293 of `analyze_papers.py`)

For the report stage the analysis dicts are viewed through the schema the
prompt requests (lines 89-95): the typed `Assessment` record carries the
six model fields plus the attached paper info. -/

/-- The paper info attached to an assessment (lines 178-184). -/
structure PaperRef where
  pubmed_id : String
  title : String
  url : String
  journal : String
  publication_date : String
deriving DecidableEq, Repr

/-- An assessment record of the `results` list, with the fields of the
prompt schema (lines 89-95) after the defaults of lines 186-198. -/
structure Assessment where
  is_relevant : Bool
  aspects : List String
  is_large_trial : Bool
  summary : String
  revolutionary_aspects : Option String
  impact_score : Int
  paper : PaperRef
deriving DecidableEq, Repr

/-- The four taxonomy labels named in the Gemini prompt
(`analyze_papers.py` lines 68, 76, 83). -/
def fourPAspects : List String :=
  ["Predictive", "Preventive", "Personalized", "Participatory"]

/-- The `paper_sort_key` function (lines 231-235). -/
def sortKey (a : Assessment) : Int × Nat × Nat :=
  (a.impact_score,
   if truthyOptStr a.revolutionary_aspects then 1 else 0,
   if a.is_large_trial then 1 else 0)

/-- Lexicographic order on sort keys (Python tuple comparison). -/
def keyLex (x y : Int × Nat × Nat) : Prop :=
  x.1 < y.1 ∨ (x.1 = y.1 ∧ x.2.1 < y.2.1) ∨
    (x.1 = y.1 ∧ x.2.1 = y.2.1 ∧ x.2.2 ≤ y.2.2)

instance (x y : Int × Nat × Nat) : Decidable (keyLex x y) := by
  unfold keyLex; infer_instance

/-- Whether `a` may precede `b` after the reverse sort on the key:
descending key order (ties keep list order, as Python sort is stable). -/
def descLe (a b : Assessment) : Bool :=
  decide (keyLex (sortKey b) (sortKey a))

/-- Line 222: the results whose relevance flag is truthy. -/
def relevantPapers (results : List Assessment) : List Assessment :=
  results.filter (fun p => p.is_relevant)

/-- Line 237: `relevant_papers.sort(key=paper_sort_key, reverse=True)`,
modelled as a stable merge sort with the descending comparison. -/
def sortedRelevant (results : List Assessment) : List Assessment :=
  (relevantPapers results).mergeSort descLe

/-- The records listed in the Markdown report: `relevant_papers[:20]`
(lines 248 and 256). -/
def reportListed (results : List Assessment) : List Assessment :=
  (sortedRelevant results).take 20

/-- The strings written for one detailed Markdown entry
(lines 256-280). -/
def mdEntryLines (i : Nat) (paper : Assessment) : List String :=
  let title := paper.paper.title
  let journal := paper.paper.journal
  let pub_date := paper.paper.publication_date
  let url := paper.paper.url
  let aspects_badges := String.intercalate " "
    (paper.aspects.map (fun a =>
      "![" ++ a ++ "](https://img.shields.io/badge/-" ++ a ++ "-blue)"))
  let impact_score := paper.impact_score
  let is_large_trial := if paper.is_large_trial then "Yes" else "No"
  let summary := paper.summary
  let revolutionary := paper.revolutionary_aspects
  ["<a id=\x27" ++ toString i ++ "\x27></a>\n",
   "### " ++ toString i ++ ". " ++ title ++ "\n\n",
   aspects_badges ++ "\n\n",
   "**Journal:** " ++ journal ++ "  \n",
   "**Publication Date:** " ++ pub_date ++ "  \n",
   "**Impact Score:** " ++ toString impact_score ++ "/10  \n",
   "**Large Trial/RCT:** " ++ is_large_trial ++ "  \n\n",
   "**Summary:**  \n" ++ summary ++ "\n\n"] ++
  (if truthyOptStr revolutionary then
    ["**Revolutionary Aspects:**  \n" ++ revolutionary.getD "" ++ "\n\n"]
   else []) ++
  ["[View on PubMed](" ++ url ++ ")\n\n", "---\n\n"]

/-! ### `convert_to_csv.py` -/

/-- The CSV header (lines 18-27 of `convert_to_csv.py`). -/
def csvFields : List String :=
  ["pubmed_id", "title", "journal", "publication_date", "url", "authors",
   "abstract", "publication_types"]

/-- Python `sep.join(v)` for a list of strings. -/
def pyJoinList (sep : String) : PyVal → String
  | .list xs =>
    String.intercalate sep (xs.map (fun v =>
      match v with
      | .str s => s
      | _ => ""))
  | _ => ""

/-- One CSV data row (lines 38-47 of `convert_to_csv.py`): the cells
written for one article dict. -/
def csvRow (paper : Dict) : List PyVal :=
  [dictGetD paper "pubmed_id" (.str ""),
   dictGetD paper "title" (.str ""),
   dictGetD paper "journal" (.str ""),
   dictGetD paper "publication_date" (.str ""),
   dictGetD paper "url" (.str ""),
   .str (pyJoinList "; " (dictGetD paper "authors" (.list []))),
   dictGetD paper "abstract" (.str ""),
   .str (pyJoinList "; " (dictGetD paper "publication_types" (.list [])))]

/-- Embedding of `convert_json_to_csv` (lines 5-51): the rows written
(nothing is written when the paper list is empty). -/
def convert_json_to_csv (papers : List Dict) : List (List PyVal) :=
  if papers.isEmpty then []
  else (csvFields.map PyVal.str) :: papers.map csvRow

/-- The string content of a CSV cell as the `csv` writer renders the
values actually stored in the article dicts. -/
def cellStr : PyVal → String
  | .str s => s
  | .int n => toString n
  | .bool b => if b then "True" else "False"
  | _ => ""

/-! ### Theorems -/

/-- The keys of every paper dict built by `search_medical_papers`. -/
def paperKeys : List String :=
  ["pubmed_id", "title", "journal", "publication_date", "abstract", "url",
   "publication_types"]

/-- The value is a Python string. -/
def isStrVal : PyVal → Bool
  | .str _ => true
  | _ => false

/-- The value is a Python list of strings. -/
def isStrListVal : PyVal → Bool
  | .list xs => xs.all isStrVal
  | _ => false

/-- The value is a Python string or `None`. -/
def isStrOrNone : PyVal → Bool
  | .str _ => true
  | PyVal.none => true
  | _ => false

/-- The value is a Python list whose entries are strings or `None`. -/
def isStrOrNoneList : PyVal → Bool
  | .list xs => xs.all isStrOrNone
  | _ => false

theorem isStrOrNone_pyValOfText (t : Option String) :
    isStrOrNone (pyValOfText t) = true := by
  cases t <;> rfl

theorem all_isStrOrNone_map_pyValOfText (ts : List (Option String)) :
    (ts.map pyValOfText).all isStrOrNone = true := by
  induction ts with
  | nil => rfl
  | cons hd tl ih => simp [isStrOrNone_pyValOfText, ih]

/-- C4 (amended): every article record produced by
`search_medical_papers` has exactly the seven fields `pubmed_id`,
`title`, `journal`, `publication_date`, `abstract`, `url`,
`publication_types` (in this order) and no `authors` field;
`publication_date`, `abstract` and `url` are always strings, while
`pubmed_id`, `title`, `journal` and each publication-type tag are
strings except when the corresponding XML element is present with no
direct text (ElementTree gives `.text = None`), in which case Python
`None` is stored. -/
theorem C4_article_record_fields (art : XmlArticle) (d : Dict)
    (h : processArticle art = some d) :
    d.map Prod.fst = paperKeys ∧ hasKey d "authors" = false ∧
      (d.all fun kv =>
        if kv.1 == "publication_types" then isStrOrNoneList kv.2
        else if kv.1 == "publication_date" || kv.1 == "abstract" ||
            kv.1 == "url" then isStrVal kv.2
        else isStrOrNone kv.2) = true := by
  rcases art with ⟨hm, ha, pm, ti, jo, pd, ab, pt⟩
  cases hm
  · exact absurd h (by simp [processArticle])
  cases ha
  · exact absurd h (by simp [processArticle])
  rcases pd with _ | ⟨y, m, dd⟩ <;> rcases ab with _ | parts <;>
    rcases pt with _ | ts <;>
    simp only [processArticle, Bool.not_true, Bool.false_eq_true, if_false,
      Option.some.injEq] at h <;> subst h <;>
    refine ⟨?_, ?_, ?_⟩ <;>
    simp [dictSet, hasKey, replaceEntry, isStrVal, isStrOrNoneList,
      paperKeys, isStrOrNone_pyValOfText, all_isStrOrNone_map_pyValOfText]

/-- A concrete `PubmedArticle` element whose elements all carry text. -/
def exampleXmlArticle : XmlArticle :=
  { hasMedlineCitation := true
    hasArticleElem := true
    pmid := some (some "12345")
    title := some (some "Alpha study")
    journal := some (some "Lancet")
    pubDate := some (some (some "2025"), some (some "Apr"), some (some "20"))
    abstractTexts := some [(some "BACKGROUND", some "Text."),
      (Option.none, some "More.")]
    pubTypes := some [some "Journal Article"] }

/-- The paper dict `processArticle` builds for `exampleXmlArticle`. -/
def examplePaperDict : Dict :=
  [("pubmed_id", .str "12345"), ("title", .str "Alpha study"),
   ("journal", .str "Lancet"), ("publication_date", .str "2025 Apr 20"),
   ("abstract", .str "BACKGROUND: Text. More."),
   ("url", .str "https://pubmed.ncbi.nlm.nih.gov/12345/"),
   ("publication_types", .list [.str "Journal Article"])]

/-- C4 witness: the amended theorem applied to a concrete article. -/
theorem C4_article_record_fields_witness :
    examplePaperDict.map Prod.fst = paperKeys ∧
      hasKey examplePaperDict "authors" = false ∧
      (examplePaperDict.all fun kv =>
        if kv.1 == "publication_types" then isStrOrNoneList kv.2
        else if kv.1 == "publication_date" || kv.1 == "abstract" ||
            kv.1 == "url" then isStrVal kv.2
        else isStrOrNone kv.2) = true :=
  C4_article_record_fields exampleXmlArticle examplePaperDict rfl

/-- A `PubmedArticle` whose `ArticleTitle` element is present but starts
with a child node, so ElementTree reports `.text = None`; one
`PublicationType` child likewise has no direct text. -/
def noneTitleArticle : XmlArticle :=
  { hasMedlineCitation := true
    hasArticleElem := true
    pmid := some (some "999")
    title := some Option.none
    journal := some (some "Lancet")
    pubDate := Option.none
    abstractTexts := Option.none
    pubTypes := some [Option.none] }

/-- The record `processArticle` builds for `noneTitleArticle`. -/
def noneTitleDict : Dict :=
  [("pubmed_id", .str "999"), ("title", PyVal.none),
   ("journal", .str "Lancet"), ("publication_date", .str ""),
   ("abstract", .str ""),
   ("url", .str "https://pubmed.ncbi.nlm.nih.gov/999/"),
   ("publication_types", .list [PyVal.none])]

/-- C4 counterexample: for an article whose `ArticleTitle` element is
present but has `.text = None` (a title starting with inline markup),
the produced record stores Python `None` as the title, and likewise a
`None` publication-type tag, refuting the claim that the title is a
string and the tags a sequence of strings. -/
theorem C4_title_is_string_counterexample :
    processArticle noneTitleArticle = some noneTitleDict ∧
      dictGet noneTitleDict "title" = some PyVal.none ∧
      isStrVal PyVal.none = false ∧
      dictGet noneTitleDict "publication_types" =
        some (PyVal.list [PyVal.none]) ∧
      isStrListVal (PyVal.list [PyVal.none]) = false :=
  ⟨rfl, rfl, rfl, rfl, rfl⟩

/-- C8: when `search_medical_papers` is called as an imported function
(the module global `group_name` undefined, i.e. `Option.none`), every run
that reaches the save step — a non-empty id list and a parsed fetch
response — raises `NameError`, so the papers list is never returned. -/
theorem C8_imported_call_name_error (idList : List String)
    (arts : List XmlArticle) (h : idList ≠ []) :
    search_medical_papers Option.none idList (some arts) =
      .error .nameError := by
  simp [search_medical_papers, h]

/-- C8 witness: the theorem applied to a concrete run. -/
theorem C8_imported_call_name_error_witness :
    search_medical_papers Option.none ["12345"] (some [exampleXmlArticle]) =
      .error .nameError :=
  C8_imported_call_name_error ["12345"] [exampleXmlArticle]
    (List.cons_ne_nil _ _)

/-- C9: the papers sent to the model are an initial segment of the
sub-list of papers whose abstract is non-blank (`papersToAnalyze` is a
prefix of `papersWithAbstracts`, and equals its `max_papers`-slice when
that argument is given); every analyzed paper has a non-blank abstract;
and when no paper has a non-blank abstract the run returns the empty
result list having issued zero requests. -/
theorem C9_blank_abstracts_filtered (papers : List Paper)
    (m : Option Int) :
    papersToAnalyze papers m <+: papersWithAbstracts papers ∧
      ((papersToAnalyze papers m).all
        (fun p => pyStrip p.abstract != "")) = true ∧
      (∀ n, papersToAnalyze papers (some n) =
        pySliceTo (papersWithAbstracts papers) n) ∧
      ∀ (o : Nat → Nat → AttemptOutcome) (j : Nat → Option Dict),
        papersWithAbstracts papers = [] → analyzeRun papers m o j = ([], 0) := by
  have hpre : papersToAnalyze papers m <+: papersWithAbstracts papers := by
    match m with
    | Option.none => exact List.prefix_rfl
    | some n =>
      show pySliceTo (papersWithAbstracts papers) n <+: papersWithAbstracts papers
      unfold pySliceTo
      split
      · exact List.take_prefix _ _
      · exact List.take_prefix _ _
  refine ⟨hpre, ?_, fun n => rfl, ?_⟩
  · rw [List.all_eq_true]
    intro p hp
    have hmem : p ∈ papersWithAbstracts papers := hpre.subset hp
    exact (List.mem_filter.mp hmem).2
  · intro o j h
    simp [analyzeRun, h]

/-- A paper whose abstract is whitespace-only. -/
def blankAbstractPaper : Paper :=
  { pubmed_id := "1", title := "T", journal := "J", publication_date := "D",
    abstract := "  \n", url := "u", publication_types := [] }

/-- C9 witness: the theorem applied to a one-paper list whose only
abstract is blank. -/
theorem C9_blank_abstracts_filtered_witness :
    analyzeRun [blankAbstractPaper] Option.none (fun _ _ => .timeout)
      (fun _ => Option.none) = ([], 0) ∧
      papersToAnalyze [blankAbstractPaper] Option.none <+:
        papersWithAbstracts [blankAbstractPaper] :=
  ⟨(C9_blank_abstracts_filtered [blankAbstractPaper] Option.none).2.2.2
      (fun _ _ => .timeout) (fun _ => Option.none) (by decide),
   (C9_blank_abstracts_filtered [blankAbstractPaper] Option.none).1⟩

theorem runAttemptsAux_snd_le (o : Nat → AttemptOutcome) (r i : Nat) :
    (runAttemptsAux o i r).2 ≤ r := by
  induction r generalizing i with
  | zero => simp [runAttemptsAux]
  | succ r ih =>
    cases ho : o i with
    | success => simp [runAttemptsAux, ho]
    | httpError c =>
      simp only [runAttemptsAux, ho]
      exact Nat.succ_le_succ (ih (i + 1))
    | timeout =>
      simp only [runAttemptsAux, ho]
      exact Nat.succ_le_succ (ih (i + 1))
    | reqError =>
      simp only [runAttemptsAux, ho]
      exact Nat.succ_le_succ (ih (i + 1))

theorem runAttemptsAux_no_reissue_after_success (o : Nat → AttemptOutcome)
    (r : Nat) : ∀ i k, k + 1 < (runAttemptsAux o i r).2 →
    o (i + k) ≠ AttemptOutcome.success := by
  induction r with
  | zero => intro i k h; simp [runAttemptsAux] at h
  | succ r ih =>
    intro i k h
    cases ho : o i with
    | success => simp [runAttemptsAux, ho] at h
    | httpError c =>
      simp only [runAttemptsAux, ho] at h
      match k with
      | 0 => simp [ho]
      | k + 1 =>
        have hk : k + 1 < (runAttemptsAux o (i + 1) r).2 := by omega
        have := ih (i + 1) k hk
        simpa [show i + (k + 1) = i + 1 + k by omega] using this
    | timeout =>
      simp only [runAttemptsAux, ho] at h
      match k with
      | 0 => simp [ho]
      | k + 1 =>
        have hk : k + 1 < (runAttemptsAux o (i + 1) r).2 := by omega
        have := ih (i + 1) k hk
        simpa [show i + (k + 1) = i + 1 + k by omega] using this
    | reqError =>
      simp only [runAttemptsAux, ho] at h
      match k with
      | 0 => simp [ho]
      | k + 1 =>
        have hk : k + 1 < (runAttemptsAux o (i + 1) r).2 := by omega
        have := ih (i + 1) k hk
        simpa [show i + (k + 1) = i + 1 + k by omega] using this

/-- C3 (amended): in the classification loop, a request for an item is
re-issued only when the previous attempt did not succeed — i.e. it timed
out, returned a non-200 status, or raised another request error — and at
most 3 request attempts are made before the item is given up on. -/
theorem C3_retry_loop_attempts (o : Nat → AttemptOutcome) :
    (runAttempts o).2 ≤ 3 ∧
      ∀ k, k + 1 < (runAttempts o).2 → o k ≠ AttemptOutcome.success := by
  refine ⟨runAttemptsAux_snd_le o 3 0, fun k h => ?_⟩
  simpa using runAttemptsAux_no_reissue_after_success o 3 0 k h

/-- A run in which the API answers every attempt with HTTP 500. -/
def allHttp500 : Nat → AttemptOutcome := fun _ => .httpError 500

/-- C3 witness: the amended theorem applied to the HTTP-500 run. -/
theorem C3_retry_loop_attempts_witness :
    (runAttempts allHttp500).2 ≤ 3 ∧
      allHttp500 0 ≠ AttemptOutcome.success :=
  ⟨(C3_retry_loop_attempts allHttp500).1,
   (C3_retry_loop_attempts allHttp500).2 0 (by decide)⟩

/-- C3 counterexample: with every attempt answered by HTTP 500 — no
timeout anywhere — the loop still issues 3 requests, so a request is
re-issued after an attempt that did not time out, refuting the claim that
a request is re-issued only when the previous attempt timed out. -/
theorem C3_retry_only_on_timeout_counterexample :
    (runAttempts allHttp500).2 = 3 ∧ 1 < (runAttempts allHttp500).2 ∧
      allHttp500 0 ≠ AttemptOutcome.timeout ∧
      allHttp500 1 ≠ AttemptOutcome.timeout := by
  decide

theorem hasKey_dictSet_mono (d : Dict) (k k2 : String) (v : PyVal)
    (h : hasKey d k2 = true) : hasKey (dictSet d k v) k2 = true := by
  by_cases he : k2 = k
  · subst he; exact hasKey_dictSet_self d k2 v
  · rw [hasKey_dictSet_other d k k2 v he]; exact h

theorem hasKey_condSet_self (d : Dict) (k : String) (v : PyVal) :
    hasKey (if hasKey d k then d else dictSet d k v) k = true := by
  by_cases h : hasKey d k
  · simp [h]
  · simp [h, hasKey_dictSet_self]

theorem hasKey_condSet_mono (d : Dict) (k k2 : String) (v : PyVal)
    (h : hasKey d k2 = true) :
    hasKey (if hasKey d k then d else dictSet d k v) k2 = true := by
  by_cases hk : hasKey d k
  · simp [hk, h]
  · simp [hk, hasKey_dictSet_mono d k k2 v h]

theorem hasKey_condSet_other (d : Dict) (k k2 : String) (v : PyVal)
    (hne : k2 ≠ k) :
    hasKey (if hasKey d k then d else dictSet d k v) k2 = hasKey d k2 := by
  by_cases hk : hasKey d k
  · simp [hk]
  · simp [hk, hasKey_dictSet_other d k k2 v hne]

theorem dictGet_condSet_other (d : Dict) (k k2 : String) (v : PyVal)
    (hne : k2 ≠ k) :
    dictGet (if hasKey d k then d else dictSet d k v) k2 = dictGet d k2 := by
  by_cases hk : hasKey d k
  · simp [hk]
  · simp [hk, dictGet_dictSet_other d k k2 v hne]

theorem hasKey_of_dictGet_some (d : Dict) (k : String) (v : PyVal)
    (h : dictGet d k = some v) : hasKey d k = true := by
  induction d with
  | nil => simp [dictGet] at h
  | cons hd tl ih =>
    by_cases h1 : hd.1 = k
    · simp [hasKey, h1]
    · simp [dictGet, h1] at h
      simp [hasKey, h1, ih h]

/-- C5: every assessment record returned by the classification loop has
all of the fields of the derived type — `is_relevant`, `aspects`,
`is_large_trial`, `summary`, `revolutionary_aspects`, `impact_score` —
and its `paper` field carries exactly the augmented article data
(identifier, title, URL, journal, publication date), even when the
model JSON omitted any of the six fields. -/
theorem C5_assessment_has_all_fields (analysis : Dict) (p : Paper) :
    hasKey (fillDefaults analysis p) "is_relevant" = true ∧
      hasKey (fillDefaults analysis p) "aspects" = true ∧
      hasKey (fillDefaults analysis p) "is_large_trial" = true ∧
      hasKey (fillDefaults analysis p) "summary" = true ∧
      hasKey (fillDefaults analysis p) "revolutionary_aspects" = true ∧
      hasKey (fillDefaults analysis p) "impact_score" = true ∧
      dictGet (fillDefaults analysis p) "paper" = some (paperInfo p) := by
  simp only [fillDefaults]
  refine ⟨?_, ?_, ?_, ?_, ?_, ?_, ?_⟩
  · exact hasKey_condSet_mono _ _ _ _ (hasKey_condSet_mono _ _ _ _
      (hasKey_condSet_mono _ _ _ _ (hasKey_condSet_mono _ _ _ _
        (hasKey_condSet_mono _ _ _ _ (hasKey_condSet_self _ _ _)))))
  · exact hasKey_condSet_mono _ _ _ _ (hasKey_condSet_mono _ _ _ _
      (hasKey_condSet_mono _ _ _ _ (hasKey_condSet_mono _ _ _ _
        (hasKey_condSet_self _ _ _))))
  · exact hasKey_condSet_mono _ _ _ _ (hasKey_condSet_mono _ _ _ _
      (hasKey_condSet_mono _ _ _ _ (hasKey_condSet_self _ _ _)))
  · exact hasKey_condSet_mono _ _ _ _ (hasKey_condSet_mono _ _ _ _
      (hasKey_condSet_self _ _ _))
  · exact hasKey_condSet_mono _ _ _ _ (hasKey_condSet_self _ _ _)
  · exact hasKey_condSet_self _ _ _
  · rw [dictGet_condSet_other _ _ _ _ (by decide),
      dictGet_condSet_other _ _ _ _ (by decide),
      dictGet_condSet_other _ _ _ _ (by decide),
      dictGet_condSet_other _ _ _ _ (by decide),
      dictGet_condSet_other _ _ _ _ (by decide),
      dictGet_condSet_other _ _ _ _ (by decide)]
    exact dictGet_dictSet_self _ _ _

/-- A concrete article record with a non-blank abstract. -/
def examplePaper : Paper :=
  { pubmed_id := "12345", title := "Alpha study", journal := "Lancet",
    publication_date := "2025 Apr 20", abstract := "A real abstract.",
    url := "https://pubmed.ncbi.nlm.nih.gov/12345/",
    publication_types := ["Journal Article"] }

theorem dictGet_condSet_of_not (d : Dict) (k : String) (v : PyVal)
    (h : hasKey d k = false) :
    dictGet (if hasKey d k then d else dictSet d k v) k = some v := by
  simp [h, dictGet_dictSet_self]

theorem dictGet_condSet_of_has (d : Dict) (k : String) (v : PyVal)
    (h : hasKey d k = true) :
    dictGet (if hasKey d k then d else dictSet d k v) k = dictGet d k := by
  simp [h]

/-- C2 (amended): when the model response omits `impact_score`, the
default filled in is `0`, which lies outside the 1-10 scale the prompt
requests; the code enforces no range on the score. -/
theorem C2_missing_impact_score_defaults_to_zero (analysis : Dict)
    (p : Paper) (h : hasKey analysis "impact_score" = false) :
    dictGet (fillDefaults analysis p) "impact_score" = some (.int 0) := by
  simp only [fillDefaults]
  rw [dictGet_condSet_of_not]
  rw [hasKey_condSet_other _ _ _ _ (by decide),
    hasKey_condSet_other _ _ _ _ (by decide),
    hasKey_condSet_other _ _ _ _ (by decide),
    hasKey_condSet_other _ _ _ _ (by decide),
    hasKey_condSet_other _ _ _ _ (by decide),
    hasKey_dictSet_other _ _ _ _ (by decide)]
  exact h

/-- C2 witness: the amended theorem applied to the empty model
response. -/
theorem C2_missing_impact_score_defaults_to_zero_witness :
    dictGet (fillDefaults [] examplePaper) "impact_score" =
      some (.int 0) :=
  C2_missing_impact_score_defaults_to_zero [] examplePaper rfl

/-- C2 counterexample: for a model response that omits `impact_score`,
the assessment record appended to the results carries the score `0`,
which does not lie in the range 1 to 10, refuting the claim that every
produced impact score lies in that range. -/
theorem C2_impact_score_in_range_counterexample :
    (analyzeRun [examplePaper] Option.none (fun _ _ => .success)
        (fun _ => some [])).1 = [fillDefaults [] examplePaper] ∧
      dictGet (fillDefaults [] examplePaper) "impact_score" =
        some (.int 0) ∧
      ¬ (1 ≤ (0 : Int) ∧ (0 : Int) ≤ 10) :=
  ⟨rfl, rfl, by decide⟩

/-- C6 (amended): the matched-aspects field is passed through exactly as
the model returned it — no deduplication and no validation against the
four taxonomy labels — and defaults to the empty list only when the
response omits it. -/
theorem C6_aspects_passed_through (analysis : Dict) (p : Paper) :
    (∀ v, dictGet analysis "aspects" = some v →
      dictGet (fillDefaults analysis p) "aspects" = some v) ∧
      (hasKey analysis "aspects" = false →
        dictGet (fillDefaults analysis p) "aspects" =
          some (PyVal.list [])) := by
  constructor
  · intro v hv
    simp only [fillDefaults]
    rw [dictGet_condSet_other _ _ _ _ (by decide),
      dictGet_condSet_other _ _ _ _ (by decide),
      dictGet_condSet_other _ _ _ _ (by decide),
      dictGet_condSet_other _ _ _ _ (by decide)]
    rw [dictGet_condSet_of_has]
    · rw [dictGet_condSet_other _ _ _ _ (by decide),
        dictGet_dictSet_other _ _ _ _ (by decide)]
      exact hv
    · rw [hasKey_condSet_other _ _ _ _ (by decide),
        hasKey_dictSet_other _ _ _ _ (by decide)]
      exact hasKey_of_dictGet_some _ _ _ hv
  · intro h
    simp only [fillDefaults]
    rw [dictGet_condSet_other _ _ _ _ (by decide),
      dictGet_condSet_other _ _ _ _ (by decide),
      dictGet_condSet_other _ _ _ _ (by decide),
      dictGet_condSet_other _ _ _ _ (by decide)]
    rw [dictGet_condSet_of_not]
    rw [hasKey_condSet_other _ _ _ _ (by decide),
      hasKey_dictSet_other _ _ _ _ (by decide)]
    exact h

/-- A model response whose aspects list has a duplicate and a label
outside the taxonomy. -/
def duplicateAspectsAnalysis : Dict :=
  [("aspects",
    PyVal.list [.str "Predictive", .str "Predictive", .str "Banana"])]

/-- C6 witness: the amended theorem applied to a concrete response with
the aspects present, and to one with them absent. -/
theorem C6_aspects_passed_through_witness :
    dictGet (fillDefaults duplicateAspectsAnalysis examplePaper)
        "aspects" =
      some (PyVal.list [.str "Predictive", .str "Predictive",
        .str "Banana"]) ∧
      dictGet (fillDefaults [] examplePaper) "aspects" =
        some (PyVal.list []) :=
  ⟨(C6_aspects_passed_through duplicateAspectsAnalysis examplePaper).1
      _ rfl,
   (C6_aspects_passed_through [] examplePaper).2 rfl⟩

/-- C6 counterexample: the model response
`{"aspects": ["Predictive", "Predictive", "Banana"]}` produces an
assessment whose aspects list keeps the duplicate and the label that is
not one of the four taxonomy labels, refuting the claim that the
matched-aspects field is a duplicate-free set drawn from the four
labels. -/
theorem C6_aspects_set_of_labels_counterexample :
    (analyzeRun [examplePaper] Option.none (fun _ _ => .success)
        (fun _ => some duplicateAspectsAnalysis)).1 =
      [fillDefaults duplicateAspectsAnalysis examplePaper] ∧
      dictGet (fillDefaults duplicateAspectsAnalysis examplePaper)
          "aspects" =
        some (PyVal.list [.str "Predictive", .str "Predictive",
          .str "Banana"]) ∧
      ¬ List.Nodup ["Predictive", "Predictive", "Banana"] ∧
      ¬ ("Banana" ∈ fourPAspects) :=
  ⟨rfl, rfl, by decide, by decide⟩

theorem keyLex_trans (x y z : Int × Nat × Nat) (h1 : keyLex x y)
    (h2 : keyLex y z) : keyLex x z := by
  rcases x with ⟨x1, x2, x3⟩
  rcases y with ⟨y1, y2, y3⟩
  rcases z with ⟨z1, z2, z3⟩
  simp only [keyLex] at *
  omega

theorem keyLex_total (x y : Int × Nat × Nat) : keyLex x y ∨ keyLex y x := by
  rcases x with ⟨x1, x2, x3⟩
  rcases y with ⟨y1, y2, y3⟩
  simp only [keyLex]
  omega

theorem descLe_trans : ∀ a b c : Assessment,
    descLe a b → descLe b c → descLe a c := by
  intro a b c h1 h2
  simp only [descLe, decide_eq_true_eq] at *
  exact keyLex_trans _ _ _ h2 h1

theorem descLe_total : ∀ a b : Assessment, descLe a b || descLe b a := by
  intro a b
  simp only [descLe, Bool.or_eq_true, decide_eq_true_eq]
  exact keyLex_total (sortKey b) (sortKey a)

/-- C10: the Markdown report lists only assessment records whose
relevance flag is true, at most 20 of them, in non-increasing
lexicographic order of
(impact score, presence of revolutionary-aspects text, large-trial
flag). -/
theorem C10_markdown_report_selection (results : List Assessment) :
    ((reportListed results).all (fun a => a.is_relevant)) = true ∧
      (reportListed results).length ≤ 20 ∧
      (reportListed results).Pairwise
        (fun a b => keyLex (sortKey b) (sortKey a)) := by
  refine ⟨?_, ?_, ?_⟩
  · rw [List.all_eq_true]
    intro a ha
    have h1 : a ∈ sortedRelevant results := List.mem_of_mem_take ha
    simp only [sortedRelevant, List.mem_mergeSort] at h1
    exact (List.mem_filter.mp h1).2
  · exact List.length_take_le 20 _
  · have hs := List.sorted_mergeSort descLe_trans descLe_total
      (relevantPapers results)
    have hs2 : (sortedRelevant results).Pairwise
        (fun a b => keyLex (sortKey b) (sortKey a)) := by
      refine List.Pairwise.imp ?_ hs
      intro a b hab
      simpa [descLe, decide_eq_true_eq] using hab
    exact List.Pairwise.sublist (List.take_sublist _ _) hs2

/-- The Markdown entry blocks written for the listed records
(line 256: `enumerate(relevant_papers[:20], 1)`). -/
def markdownEntries (results : List Assessment) : List (List String) :=
  (reportListed results).enum.map (fun ip => mdEntryLines (ip.1 + 1) ip.2)

/-- The tail of `analyze_papers_with_gemini` after the results list is
complete (lines 216-295): the Markdown entry blocks it writes, paired
with the value the function returns (line 295). -/
def analyzeFinish (results : List Assessment) :
    List (List String) × List Assessment :=
  (markdownEntries results, results)

/-- The run of `convert_json_to_csv` as a state transformer: the rows,
paired with the article records after the run. -/
def convertRun (papers : List Dict) : List (List PyVal) × List Dict :=
  (convert_json_to_csv papers, papers)

/-- C7: records are immutable once produced: the report stage returns the
results list unchanged, sorting only permutes the relevant records, every
record listed in the Markdown report is (field for field) an element of
the results list, and `convert_json_to_csv` leaves the article records it
reads unchanged, each row being a function of its own record. -/
theorem C7_records_unchanged (results : List Assessment)
    (papers : List Dict) :
    (analyzeFinish results).2 = results ∧
      (sortedRelevant results).Perm (relevantPapers results) ∧
      reportListed results ⊆ results ∧
      (convertRun papers).2 = papers ∧
      (convertRun papers).1 =
        (if papers.isEmpty then []
         else (csvFields.map PyVal.str) :: papers.map csvRow) := by
  refine ⟨rfl, List.mergeSort_perm _ _, ?_, rfl, rfl⟩
  intro a ha
  have h1 : a ∈ sortedRelevant results := List.mem_of_mem_take ha
  simp only [sortedRelevant, List.mem_mergeSort] at h1
  exact (List.mem_filter.mp h1).1

/-- C1 (amended): the Markdown report entries carry the scoring
output for their article — the impact score, the large-trial flag, the
summary and the aspect badges are all rendered in each entry — while the
CSV report produced by `convert_json_to_csv` is rendered from the article
records alone: its rows are the article fields (identifier, title,
journal, date, URL, authors, abstract, publication types) and carry no
scoring output. -/
theorem C1_report_rendering (a : Assessment) (i : Nat)
    (papers : List Dict) :
    ("**Impact Score:** " ++ toString a.impact_score ++ "/10  \n") ∈
        mdEntryLines i a ∧
      ("**Summary:**  \n" ++ a.summary ++ "\n\n") ∈ mdEntryLines i a ∧
      ("**Large Trial/RCT:** " ++
          (if a.is_large_trial then "Yes" else "No") ++ "  \n\n") ∈
        mdEntryLines i a ∧
      (String.intercalate " " (a.aspects.map (fun x =>
          "![" ++ x ++ "](https://img.shields.io/badge/-" ++ x ++
            "-blue)")) ++ "\n\n") ∈ mdEntryLines i a ∧
      convert_json_to_csv papers =
        (if papers.isEmpty then []
         else (csvFields.map PyVal.str) :: papers.map csvRow) := by
  refine ⟨?_, ?_, ?_, ?_, rfl⟩ <;> simp [mdEntryLines]

/-- The assessment the model would attach to the article of
`examplePaperDict`, with impact score 7. -/
def exampleAssessment : Assessment :=
  { is_relevant := true
    aspects := ["Predictive"]
    is_large_trial := true
    summary := "A forward-looking summary."
    revolutionary_aspects := some "Novel method."
    impact_score := 7
    paper :=
      { pubmed_id := "12345", title := "Alpha study",
        url := "https://pubmed.ncbi.nlm.nih.gov/12345/",
        journal := "Lancet", publication_date := "2025 Apr 20" } }

/-- C1 counterexample: for a run over the article of `examplePaperDict`,
whose assessment has impact score 7 and a known summary, the CSV row the
export stage writes for that article contains the digit 7 in no cell and
does not contain the summary: the CSV report does not carry the scoring
output of the model, refuting the claim that every row of each report
does. -/
theorem C1_csv_not_from_assessments_counterexample :
    convert_json_to_csv [examplePaperDict] =
      [csvFields.map PyVal.str, csvRow examplePaperDict] ∧
      exampleAssessment.impact_score = 7 ∧
      (((csvRow examplePaperDict).map cellStr).all
        (fun c => !(c.data.contains (Char.ofNat 55)))) = true ∧
      (((csvRow examplePaperDict).map cellStr).contains
        exampleAssessment.summary) = false :=
  ⟨rfl, rfl, by decide, by decide⟩
